import Mathlib

/-!
Shallow embedding of `src/py21cmmc/mcmc.py` (21CMMC sampler orchestration):
the parameter set, chain assembly, the continuation/checkpoint logic of
`run_mcmc`, the backend option extraction, and the likelihood/prior/posterior
closures handed to the MultiNest and zeus backends.

Machine floats of the source are modelled as rationals (`ℚ`); Python
exceptions as `Except`; filesystem and sampler side effects as an explicit
trace of `Effect` values.
-/

namespace McmcModel

/-- One sampled parameter.  In the source a parameter is the tuple
`(val, min, max, width)` keyed by name; indexing `params[i][0] = val`,
`params[i][1] = min`, `params[i][2] = max`, `params[i][-1] = width`. -/
structure Param where
  name : String
  v0 : ℚ
  lo : ℚ
  hi : ℚ
  width : ℚ
deriving DecidableEq, Repr

/-- Fallback parameter used only to state total `getD` lookups. -/
def paramDefault : Param := { name := "", v0 := 0, lo := 0, hi := 0, width := 0 }

/-- The ordered `Params` object built from the user's parameter dict. -/
abbrev ParamSet := List Param

/-- A core module, identified opaquely (the module implementations are
external collaborators). -/
structure CoreModule where
  id : Nat
deriving DecidableEq, Repr

/-- A likelihood module.  `simulate = none` models a module without a
`_simulate` attribute; `simulate = some b` models `_simulate = b`. -/
structure LikelihoodModule where
  id : Nat
  simulate : Option Bool
deriving DecidableEq, Repr

/-- The assembled `LikelihoodComputationChain`: ordered core modules, ordered
likelihood modules, and the parameter set.  Equality is structural, matching
the descriptor-identity notion used by the continuation check. -/
structure LikelihoodComputationChain where
  params : ParamSet
  coreModules : List CoreModule
  likelihoodModules : List LikelihoodModule
deriving DecidableEq, Repr

/-- An argument that is either a single module (no `__len__`) or already a
sequence of modules, as distinguished by `hasattr(x, "__len__")`. -/
inductive ModuleInput (α : Type)
  | single (m : α)
  | many (ms : List α)
deriving DecidableEq, Repr

/-- Normalization done at the top of `build_computation_chain`: a single
module is wrapped into a one-element list, a sequence is kept as is. -/
def ModuleInput.toList {α : Type} : ModuleInput α → List α
  | .single m => [m]
  | .many ms => ms

/-- Modelled from the spec: `LikelihoodComputationChain.addCoreModule` lives
in the cosmoHammer package, which is not part of this source tree; per the
spec, modules are added in the order supplied, i.e. appended at the end. -/
def addCoreModule (c : LikelihoodComputationChain) (m : CoreModule) :
    LikelihoodComputationChain :=
  { c with coreModules := c.coreModules ++ [m] }

/-- Modelled from the spec: `LikelihoodComputationChain.addLikelihoodModule`
lives in the cosmoHammer package, which is not part of this source tree; per
the spec, modules are added in the order supplied, i.e. appended at the end. -/
def addLikelihoodModule (c : LikelihoodComputationChain) (m : LikelihoodModule) :
    LikelihoodComputationChain :=
  { c with likelihoodModules := c.likelihoodModules ++ [m] }

/-- The function `build_computation_chain(core_modules, likelihood_modules, params, setup)`:
normalize single modules to one-element lists, build the chain, add core and
likelihood modules in the order supplied.  The `setup` flag triggers the
external `chain.setup()` lifecycle call, which does not change the chain's
structure; `run_mcmc` passes `setup=False` and performs setup later. -/
def build_computation_chain (core_modules : ModuleInput CoreModule)
    (likelihood_modules : ModuleInput LikelihoodModule)
    (params : ParamSet) (setup : Bool) : LikelihoodComputationChain :=
  let cms := core_modules.toList
  let lks := likelihood_modules.toList
  let chain : LikelihoodComputationChain :=
    { params := params, coreModules := [], likelihoodModules := [] }
  let chain := cms.foldl addCoreModule chain
  let chain := lks.foldl addLikelihoodModule chain
  let _ := setup
  chain

/-! ### The generic options mapping (`**mcmc_options`) -/

/-- A value stored in the options dict: a bool, an int, a float (as `ℚ`), or
Python `None`. -/
inductive OptVal
  | b (x : Bool)
  | n (x : Nat)
  | q (x : ℚ)
  | noneV
deriving DecidableEq, Repr

/-- The `mcmc_options` keyword mapping. -/
abbrev Options := List (String × OptVal)

/-- Python `mcmc_options.get(key, default)`. -/
def Options.get (o : Options) (k : String) (d : OptVal) : OptVal :=
  match o.lookup k with
  | some v => v
  | none => d

/-- The tunables handed to `zeus.EnsembleSampler` by the zeus branch. -/
structure ZeusConfig where
  ndim : OptVal
  nwalkers : OptVal
  nsteps : OptVal
  tolerance : OptVal
  patience : OptVal
  maxsteps : OptVal
  mu : OptVal
  maxiter : OptVal
  pool : OptVal
  vectorize : OptVal
  blobs_dtype : OptVal
  verbose : OptVal
  check_walkers : OptVal
  shuffle_ensemble : OptVal
  light_mode : OptVal
deriving DecidableEq, Repr

/-- Option extraction of the zeus branch of `run_mcmc` (source lines
203-237).  Note the source's line 234: `verbose = mcmc_options.get("vectorize", True)`
reads the verbose value from the `vectorize` key, not the `verbose` key. -/
def readZeusOptions (o : Options) : ZeusConfig :=
  { ndim := o.get "ndim" (.n 2)
    nwalkers := o.get "nwalkers" (.n 10)
    nsteps := o.get "nsteps" (.n 100)
    tolerance := o.get "tolerance" (.q (1 / 20))
    patience := o.get "patience" (.n 5)
    maxsteps := o.get "maxsteps" (.q 10000)
    mu := o.get "mu" (.q 1)
    maxiter := o.get "maxiter" (.q 10000)
    pool := o.get "pool" .noneV
    vectorize := o.get "vectorize" (.b false)
    blobs_dtype := o.get "blobs_dtype" .noneV
    verbose := o.get "vectorize" (.b true)
    check_walkers := o.get "check_walkers" (.b true)
    shuffle_ensemble := o.get "shuffle_ensemble" (.b true)
    light_mode := o.get "light_mode" (.b false) }

/-! ### The backend closures -/

/-- Errors that the chain evaluation (an external collaborator) may raise:
`ParameterError` from the simulator, an index error from a malformed point,
or any other exception. -/
inductive SimErr
  | paramError
  | indexError
  | otherError
deriving DecidableEq, Repr

/-- A log-probability: either a finite value or negative infinity. -/
inductive LogProb
  | negInf
  | val (q : ℚ)
deriving DecidableEq, Repr

/-- The MultiNest `likelihood(p, ndim, nparams)` closure.  `evalChain`
abstracts `chain.computeLikelihoods(chain.build_model_data(Params(zip(keys, p))))`
(cosmoHammer, an external collaborator); a `ParameterError` raised there is
caught and mapped to negative infinity, every other exception propagates. -/
def likelihood_multinest (evalChain : List ℚ → Except SimErr ℚ)
    (p : List ℚ) (ndim nparams : Nat) : Except SimErr LogProb :=
  let _ := ndim
  let _ := nparams
  match evalChain p with
  | .ok q => .ok (.val q)
  | .error .paramError => .ok .negInf
  | .error e => .error e

/-- The zeus `likelihood(p)` closure, same recovery pattern as the MultiNest
one: a `ParameterError` from the chain evaluation becomes negative infinity. -/
def likelihood_zeus (evalChain : List ℚ → Except SimErr ℚ)
    (p : List ℚ) : Except SimErr LogProb :=
  match evalChain p with
  | .ok q => .ok (.val q)
  | .error .paramError => .ok .negInf
  | .error e => .error e

/-- The loop body of the zeus `prior(p)` closure:
`for i in range(len(p)): if (p[i] > params[i][2]) or (p[i] < params[i][1]): return p, True`.
Accessing `params[i]` past the end raises an index error. -/
def priorLoop (params : ParamSet) (p : List ℚ) (i : Nat) : Except SimErr Bool :=
  if h : i < p.length then
    match params[i]? with
    | none => .error .indexError
    | some par =>
      if p.get ⟨i, h⟩ > par.hi ∨ p.get ⟨i, h⟩ < par.lo then .ok true
      else priorLoop params p (i + 1)
  else .ok false
termination_by p.length - i

/-- The zeus `prior(p)` closure: returns the point together with the
out-of-bounds flag. -/
def prior_zeus (params : ParamSet) (p : List ℚ) : Except SimErr (List ℚ × Bool) :=
  match priorLoop params p 0 with
  | .error e => .error e
  | .ok b => .ok (p, b)

/-- The zeus `posterior(p)` closure: run the prior check; if the point is
flagged, return negative infinity without touching the likelihood closure,
otherwise return the likelihood closure's value. -/
def posterior_zeus (params : ParamSet) (evalChain : List ℚ → Except SimErr ℚ)
    (p : List ℚ) : Except SimErr LogProb :=
  match prior_zeus params p with
  | .error e => .error e
  | .ok (_, true) => .ok .negInf
  | .ok (p2, false) => likelihood_zeus evalChain p2

/-- The MultiNest `prior(p, ndim, nparams)` transform:
`for i in range(ndim): p[i] = params[i][1] + p[i] * (params[i][2] - params[i][1])`,
updating the vector in place; indexing past either array raises. -/
def prior_multinest (params : ParamSet) (p : List ℚ) (i ndim : Nat) :
    Except SimErr (List ℚ) :=
  if i < ndim then
    match params[i]?, p[i]? with
    | some par, some u =>
        prior_multinest params (p.set i (par.lo + u * (par.hi - par.lo))) (i + 1) ndim
    | _, _ => .error .indexError
  else .ok p
termination_by ndim - i

/-! ### The `run_mcmc` orchestration -/

/-- The assignment `lk._simulate = False`, applied exactly when
`hasattr(lk, "_simulate") and lk._simulate`. -/
def clearSimulate (lk : LikelihoodModule) : LikelihoodModule :=
  match lk.simulate with
  | some true => { lk with simulate := some false }
  | _ => lk

/-- The continuation block's loop over `chain.getLikelihoodModules()`
(a cosmoHammer accessor returning the chain's likelihood modules in order),
clearing every set re-simulate flag. -/
def forceNoSimulate (c : LikelihoodComputationChain) : LikelihoodComputationChain :=
  { c with likelihoodModules := c.likelihoodModules.map clearSimulate }

/-- Observable side effects of a `run_mcmc` call, in order. -/
inductive Effect
  | mkdirDir (d : String)
  | chainAssembled
  | readDescriptor
  | writeDescriptor
  | writeDescriptorFailed
  | chainSetup
  | samplerConstructed
  | samplerStarted
deriving DecidableEq, Repr

/-- Errors surfaced by `run_mcmc` itself. -/
inductive RunError
  | valueError
  | importError
  | runtimeError
deriving DecidableEq, Repr

/-- The environment a `run_mcmc` call sees: the parsed contents of the
`<prefix>.LCC.yml` descriptor file (`none` models `FileNotFoundError`),
whether writing the descriptor back succeeds, and which optional backend
libraries are importable. -/
structure RunEnv where
  diskDescriptor : Option LikelihoodComputationChain
  writeOk : Bool
  multinestInstalled : Bool
  zeusInstalled : Bool

/-- The arguments of `run_mcmc`. -/
structure RunArgs where
  datadir : String
  model_name : String
  core_modules : ModuleInput CoreModule
  likelihood_modules : ModuleInput LikelihoodModule
  params : ParamSet
  continue_sampling : Bool
  reuse_burnin : Bool
  use_multinest : Bool
  use_zeus : Bool
  mcmc_options : Options

/-- What the default branch hands to `sampler_cls`. -/
structure SamplerConfig where
  continue_sampling : Bool
  chain : LikelihoodComputationChain
  fileBase : String
  reuseBurnin : Bool
deriving DecidableEq, Repr

/-- The value `run_mcmc` returns: the MultiNest sentinel `1`, the zeus
sampler (with the tunables it was constructed with and the chain its
posterior closes over), or the default cosmoHammer sampler. -/
inductive RunResult
  | multinestSentinel
  | zeusSampler (cfg : ZeusConfig) (chain : LikelihoodComputationChain)
  | defaultSampler (cfg : SamplerConfig)
deriving DecidableEq, Repr

/-- The continuation check of the default backend: read the descriptor file
(`FileNotFoundError` is swallowed); if a descriptor is present and compares
unequal to the freshly assembled chain, raise `RuntimeError`; otherwise force
every likelihood module's re-simulate flag off. -/
def continuationCheck (disk : Option LikelihoodComputationChain)
    (chain : LikelihoodComputationChain) :
    Except RunError LikelihoodComputationChain :=
  match disk with
  | some old =>
      if old = chain then .ok (forceNoSimulate chain) else .error .runtimeError
  | none => .ok (forceNoSimulate chain)

/-- The backend dispatch at the end of `run_mcmc`, with the effects it
emits.  The MultiNest and zeus engines and the cosmoHammer sampler are
external collaborators; constructing and starting them are effects. -/
def backendDispatch (a : RunArgs) (fileBase : String)
    (chain : LikelihoodComputationChain) :
    Except RunError RunResult × List Effect :=
  if a.use_multinest then
    (.ok .multinestSentinel, [Effect.samplerStarted])
  else if a.use_zeus then
    (.ok (.zeusSampler (readZeusOptions a.mcmc_options) chain),
     [Effect.samplerConstructed, Effect.samplerStarted])
  else
    (.ok (.defaultSampler
        { continue_sampling := a.continue_sampling, chain := chain,
          fileBase := fileBase, reuseBurnin := a.reuse_burnin }),
     [Effect.samplerConstructed, Effect.samplerStarted])

/-- The function `run_mcmc`, as the pair (outcome, ordered effect trace).  Mirrors the
source's control flow: the `use_multinest and use_zeus` check first, then the
MultiNest option block (which renames `datadir` and imports pymultinest),
then `mkdir(datadir)` (`FileExistsError` swallowed), then the zeus option
block (which imports zeus), chain assembly, the continuation check (default
backend only), the descriptor write (failures logged and swallowed),
`chain.setup()`, and finally the selected backend. -/
def run_mcmc (env : RunEnv) (a : RunArgs) : Except RunError RunResult × List Effect :=
  let fileBase := a.datadir ++ "/" ++ a.model_name
  if a.use_multinest ∧ a.use_zeus then
    (.error .valueError, [])
  else if a.use_multinest ∧ ¬ env.multinestInstalled then
    (.error .importError, [])
  else
    let datadir := if a.use_multinest then a.datadir ++ "/MultiNest/" else a.datadir
    let effs := [Effect.mkdirDir datadir]
    if a.use_zeus ∧ ¬ env.zeusInstalled then
      (.error .importError, effs)
    else
      let chain := build_computation_chain a.core_modules a.likelihood_modules
        a.params false
      let effs := effs ++ [Effect.chainAssembled]
      let contFlag := a.continue_sampling ∧ ¬ (a.use_multinest ∨ a.use_zeus)
      let contRes := if contFlag then continuationCheck env.diskDescriptor chain
        else .ok chain
      let effs := effs ++ (if contFlag then [Effect.readDescriptor] else [])
      match contRes with
      | .error e => (.error e, effs)
      | .ok chain2 =>
        let effs := effs ++
          (if env.writeOk then [Effect.writeDescriptor]
           else [Effect.writeDescriptorFailed])
        let effs := effs ++ [Effect.chainSetup]
        let (res, tailEffs) := backendDispatch a fileBase chain2
        (res, effs ++ tailEffs)

/-! ### Helper lemmas -/

theorem foldl_addCoreModule (l : List CoreModule) (c : LikelihoodComputationChain) :
    (l.foldl addCoreModule c).coreModules = c.coreModules ++ l
    ∧ (l.foldl addCoreModule c).likelihoodModules = c.likelihoodModules
    ∧ (l.foldl addCoreModule c).params = c.params := by
  induction l generalizing c with
  | nil => simp
  | cons m ms ih =>
      simp only [List.foldl_cons]
      rcases ih (addCoreModule c m) with ⟨h1, h2, h3⟩
      rw [h1, h2, h3]
      simp [addCoreModule]

theorem foldl_addLikelihoodModule (l : List LikelihoodModule)
    (c : LikelihoodComputationChain) :
    (l.foldl addLikelihoodModule c).likelihoodModules = c.likelihoodModules ++ l
    ∧ (l.foldl addLikelihoodModule c).coreModules = c.coreModules
    ∧ (l.foldl addLikelihoodModule c).params = c.params := by
  induction l generalizing c with
  | nil => simp
  | cons m ms ih =>
      simp only [List.foldl_cons]
      rcases ih (addLikelihoodModule c m) with ⟨h1, h2, h3⟩
      rw [h1, h2, h3]
      simp [addLikelihoodModule]

theorem build_chain_components (cms : ModuleInput CoreModule)
    (lms : ModuleInput LikelihoodModule) (ps : ParamSet) (su : Bool) :
    (build_computation_chain cms lms ps su).coreModules = cms.toList
    ∧ (build_computation_chain cms lms ps su).likelihoodModules = lms.toList
    ∧ (build_computation_chain cms lms ps su).params = ps := by
  unfold build_computation_chain
  rcases foldl_addLikelihoodModule lms.toList
    (cms.toList.foldl addCoreModule
      { params := ps, coreModules := [], likelihoodModules := [] }) with ⟨l1, l2, l3⟩
  rcases foldl_addCoreModule cms.toList
    { params := ps, coreModules := [], likelihoodModules := [] } with ⟨c1, c2, c3⟩
  refine ⟨?_, ?_, ?_⟩ <;> simp_all

/-! ### Claim theorems (first batch) -/

/-- C9: `build_computation_chain` wraps a single core module or likelihood
module into a one-element sequence, and adds core and likelihood modules to
the chain in exactly the order supplied, so the chain's module lists equal
the normalized input lists in the same order. -/
theorem build_computation_chain_order (cms : ModuleInput CoreModule)
    (lms : ModuleInput LikelihoodModule) (ps : ParamSet) (su : Bool) :
    (build_computation_chain cms lms ps su).coreModules = cms.toList
    ∧ (build_computation_chain cms lms ps su).likelihoodModules = lms.toList
    ∧ (∀ m : CoreModule, (ModuleInput.single m).toList = [m])
    ∧ (∀ ms : List CoreModule, (ModuleInput.many ms).toList = ms)
    ∧ (∀ m : LikelihoodModule, (ModuleInput.single m).toList = [m])
    ∧ (∀ ms : List LikelihoodModule, (ModuleInput.many ms).toList = ms) := by
  rcases build_chain_components cms lms ps su with ⟨h1, h2, _⟩
  exact ⟨h1, h2, fun m => rfl, fun ms => rfl, fun m => rfl, fun ms => rfl⟩

/-- C1: refuted on the code — in the zeus branch of `run_mcmc` the `verbose`
tunable is read from the options mapping under the `vectorize` key (source
line 234), so setting `vectorize` also changes the `verbose` value handed to
the engine, and a `verbose` entry in the options mapping is ignored. -/
theorem readZeusOptions_verbose_reads_vectorize_key :
    (readZeusOptions [("vectorize", OptVal.b false)]).verbose = OptVal.b false
    ∧ (readZeusOptions [("vectorize", OptVal.b false)]).vectorize = OptVal.b false
    ∧ (readZeusOptions [("verbose", OptVal.b false)]).verbose = OptVal.b true := by
  refine ⟨?_, ?_, ?_⟩ <;> decide

/-- C5: both the MultiNest and zeus likelihood closures absorb a
parameter-domain error raised by the chain's build-model-data /
compute-likelihoods step, returning negative infinity instead, and neither
closure ever lets a parameter-domain error escape to the backend. -/
theorem likelihood_closures_absorb_param_error
    (evalChain : List ℚ → Except SimErr ℚ) (p : List ℚ) (ndim nparams : Nat) :
    (evalChain p = .error .paramError →
      likelihood_multinest evalChain p ndim nparams = .ok .negInf
      ∧ likelihood_zeus evalChain p = .ok .negInf)
    ∧ likelihood_multinest evalChain p ndim nparams ≠ .error .paramError
    ∧ likelihood_zeus evalChain p ≠ .error .paramError := by
  simp only [likelihood_multinest, likelihood_zeus]
  cases h : evalChain p with
  | ok q => simp
  | error e => cases e <;> simp

/-- Witness for C5 at a concrete chain evaluation and point. -/
theorem likelihood_closures_absorb_param_error_witness :
    likelihood_multinest (fun _ => .error .paramError) [] 0 0 = .ok .negInf
    ∧ likelihood_zeus (fun _ => .error .paramError) [] = .ok .negInf :=
  (likelihood_closures_absorb_param_error (fun _ => .error .paramError) [] 0 0).1 rfl

/-- C2: a `run_mcmc` call with both `use_multinest=True` and `use_zeus=True`
raises a configuration error immediately, with an empty effect trace: no
directory creation, no file I/O, no chain assembly. -/
theorem run_mcmc_both_backends_valueError (env : RunEnv) (a : RunArgs)
    (hm : a.use_multinest = true) (hz : a.use_zeus = true) :
    run_mcmc env a = (.error .valueError, []) := by
  simp [run_mcmc, hm, hz]

/-- Sample environment for witnesses: descriptor absent, everything installed. -/
def envNoDisk : RunEnv :=
  { diskDescriptor := none, writeOk := true,
    multinestInstalled := true, zeusInstalled := true }

/-- Sample arguments requesting both alternative backends. -/
def argsBoth : RunArgs :=
  { datadir := "out", model_name := "m", core_modules := .many [],
    likelihood_modules := .many [], params := [], continue_sampling := true,
    reuse_burnin := true, use_multinest := true, use_zeus := true,
    mcmc_options := [] }

/-- Witness for C2 at a concrete environment and argument record. -/
theorem run_mcmc_both_backends_valueError_witness :
    run_mcmc envNoDisk argsBoth = (.error .valueError, []) :=
  run_mcmc_both_backends_valueError envNoDisk argsBoth rfl rfl

/-! ### The zeus prior check -/

/-- Coordinate `i` of point `p` is strictly outside parameter `i`'s
`[lower, upper]` interval (the condition tested by the zeus `prior`). -/
def zeusOut (params : ParamSet) (p : List ℚ) (i : Nat) : Prop :=
  p.getD i 0 > (params.getD i paramDefault).hi
  ∨ p.getD i 0 < (params.getD i paramDefault).lo

instance (params : ParamSet) (p : List ℚ) (i : Nat) :
    Decidable (zeusOut params p i) := by
  unfold zeusOut; infer_instance

theorem getD_lt {α : Type} (l : List α) (i : Nat) (d : α) (h : i < l.length) :
    l.getD i d = l[i] := by
  simp [List.getD_eq_getElem?_getD, List.getElem?_eq_getElem h]

theorem priorLoop_stop (params : ParamSet) (p : List ℚ) (j : Nat)
    (h : ¬ j < p.length) : priorLoop params p j = .ok false := by
  rw [priorLoop, dif_neg h]

theorem priorLoop_hit (params : ParamSet) (p : List ℚ) (j : Nat) (par : Param)
    (h : j < p.length) (h2 : params[j]? = some par)
    (h3 : p.get ⟨j, h⟩ > par.hi ∨ p.get ⟨j, h⟩ < par.lo) :
    priorLoop params p j = .ok true := by
  rw [priorLoop, dif_pos h, h2]
  exact if_pos h3

theorem priorLoop_step (params : ParamSet) (p : List ℚ) (j : Nat) (par : Param)
    (h : j < p.length) (h2 : params[j]? = some par)
    (h3 : ¬ (p.get ⟨j, h⟩ > par.hi ∨ p.get ⟨j, h⟩ < par.lo)) :
    priorLoop params p j = priorLoop params p (j + 1) := by
  rw [priorLoop, dif_pos h, h2]
  exact if_neg h3

theorem priorLoop_true_iff (params : ParamSet) (p : List ℚ)
    (hlen : p.length ≤ params.length) (j : Nat) :
    priorLoop params p j = .ok true ↔
      ∃ i, j ≤ i ∧ i < p.length ∧ zeusOut params p i := by
  by_cases h : j < p.length
  · have hj : j < params.length := lt_of_lt_of_le h hlen
    have hget : params[j]? = some params[j] := List.getElem?_eq_getElem hj
    have hout : zeusOut params p j ↔
        (p.get ⟨j, h⟩ > params[j].hi ∨ p.get ⟨j, h⟩ < params[j].lo) := by
      unfold zeusOut
      rw [getD_lt p j 0 h, getD_lt params j paramDefault hj, List.get_eq_getElem]
    by_cases h3 : p.get ⟨j, h⟩ > params[j].hi ∨ p.get ⟨j, h⟩ < params[j].lo
    · rw [priorLoop_hit params p j params[j] h hget h3]
      constructor
      · intro _
        exact ⟨j, Nat.le_refl j, h, hout.2 h3⟩
      · intro _
        rfl
    · rw [priorLoop_step params p j params[j] h hget h3,
        priorLoop_true_iff params p hlen (j + 1)]
      constructor
      · rintro ⟨i, hji, hip, ho⟩
        exact ⟨i, Nat.le_of_succ_le hji, hip, ho⟩
      · rintro ⟨i, hji, hip, ho⟩
        rcases Nat.eq_or_lt_of_le hji with rfl | hlt
        · exact absurd (hout.1 ho) h3
        · exact ⟨i, hlt, hip, ho⟩
  · rw [priorLoop_stop params p j h]
    constructor
    · intro hfalse
      simp at hfalse
    · rintro ⟨i, hji, hip, _⟩
      exact absurd (Nat.lt_of_le_of_lt hji hip) h
termination_by p.length - j

theorem priorLoop_total (params : ParamSet) (p : List ℚ)
    (hlen : p.length ≤ params.length) (j : Nat) :
    priorLoop params p j = .ok true ∨ priorLoop params p j = .ok false := by
  by_cases h : j < p.length
  · have hj : j < params.length := lt_of_lt_of_le h hlen
    have hget : params[j]? = some params[j] := List.getElem?_eq_getElem hj
    by_cases h3 : p.get ⟨j, h⟩ > params[j].hi ∨ p.get ⟨j, h⟩ < params[j].lo
    · exact Or.inl (priorLoop_hit params p j params[j] h hget h3)
    · rw [priorLoop_step params p j params[j] h hget h3]
      exact priorLoop_total params p hlen (j + 1)
  · exact Or.inr (priorLoop_stop params p j h)
termination_by p.length - j

/-- C6: in the zeus backend, a point with some coordinate strictly outside
that parameter's `[lower, upper]` interval gets posterior negative infinity
and the likelihood closure is never invoked (the posterior does not depend on
the chain evaluation at all); a point with every coordinate inside its bounds
gets exactly the likelihood closure's value. -/
theorem posterior_zeus_shortcircuit (params : ParamSet)
    (evalA evalB : List ℚ → Except SimErr ℚ) (p : List ℚ)
    (hlen : p.length ≤ params.length) :
    ((∃ i, i < p.length ∧ zeusOut params p i) →
      posterior_zeus params evalA p = .ok .negInf
      ∧ posterior_zeus params evalA p = posterior_zeus params evalB p)
    ∧ ((∀ i, i < p.length → ¬ zeusOut params p i) →
      posterior_zeus params evalA p = likelihood_zeus evalA p) := by
  constructor
  · rintro ⟨i, hip, hout⟩
    have htrue : priorLoop params p 0 = .ok true :=
      (priorLoop_true_iff params p hlen 0).2 ⟨i, Nat.zero_le i, hip, hout⟩
    constructor <;> simp [posterior_zeus, prior_zeus, htrue]
  · intro hin
    have hnot : ¬ priorLoop params p 0 = .ok true := by
      rw [priorLoop_true_iff params p hlen 0]
      rintro ⟨i, _, hip, hout⟩
      exact hin i hip hout
    have hfalse : priorLoop params p 0 = .ok false := by
      rcases priorLoop_total params p hlen 0 with h | h
      · exact absurd h hnot
      · exact h
    simp [posterior_zeus, prior_zeus, hfalse]

/-- Sample one-parameter set for witnesses. -/
def paramsUnit : ParamSet :=
  [{ name := "a", v0 := 0, lo := 0, hi := 1, width := 1 }]

/-- Witness for C6: the point `[2]` is above the upper bound `1`, the
posterior is negative infinity and is insensitive to the chain evaluation. -/
theorem posterior_zeus_shortcircuit_witness :
    posterior_zeus paramsUnit (fun _ => .ok 3) [2] = .ok .negInf
    ∧ posterior_zeus paramsUnit (fun _ => .ok 3) [2]
        = posterior_zeus paramsUnit (fun _ => .ok 4) [2] :=
  (posterior_zeus_shortcircuit paramsUnit (fun _ => .ok 3) (fun _ => .ok 4) [2]
    (by decide)).1 ⟨0, by decide, by decide⟩

/-! ### The MultiNest prior transform -/

theorem prior_multinest_stop (params : ParamSet) (p : List ℚ) (i ndim : Nat)
    (h : ¬ i < ndim) : prior_multinest params p i ndim = .ok p := by
  rw [prior_multinest, if_neg h]

theorem prior_multinest_step (params : ParamSet) (p : List ℚ) (i ndim : Nat)
    (par : Param) (u : ℚ) (h : i < ndim)
    (h2 : params[i]? = some par) (h3 : p[i]? = some u) :
    prior_multinest params p i ndim
      = prior_multinest params (p.set i (par.lo + u * (par.hi - par.lo)))
          (i + 1) ndim := by
  rw [prior_multinest, if_pos h, h2, h3]

theorem prior_multinest_go (params : ParamSet) (j : Nat) (p : List ℚ)
    (hlen : params.length ≤ p.length) (hj : j ≤ params.length) :
    ∃ q, prior_multinest params p j params.length = .ok q
      ∧ q.length = p.length
      ∧ (∀ i, i < j → q.getD i 0 = p.getD i 0)
      ∧ (∀ i, j ≤ i → i < params.length →
          q.getD i 0 = (params.getD i paramDefault).lo
            + p.getD i 0 * ((params.getD i paramDefault).hi
                - (params.getD i paramDefault).lo))
      ∧ (∀ i, params.length ≤ i → q.getD i 0 = p.getD i 0) := by
  by_cases h : j < params.length
  · have hjp : j < p.length := Nat.lt_of_lt_of_le h hlen
    have hget : params[j]? = some params[j] := List.getElem?_eq_getElem h
    have hgp : p[j]? = some p[j] := List.getElem?_eq_getElem hjp
    set v : ℚ := params[j].lo + p[j] * (params[j].hi - params[j].lo) with hv
    have hstep := prior_multinest_step params p j params.length params[j] p[j]
      h hget hgp
    have hlen2 : params.length ≤ (p.set j v).length := by
      rw [List.length_set]; exact hlen
    obtain ⟨q, hq, hql, hqlow, hqmid, hqhigh⟩ :=
      prior_multinest_go params (j + 1) (p.set j v) hlen2 h
    have hset_ne : ∀ i, i ≠ j → (p.set j v).getD i 0 = p.getD i 0 := by
      intro i hne
      rw [List.getD_eq_getElem?_getD, List.getD_eq_getElem?_getD,
        List.getElem?_set_ne (Ne.symm hne)]
    have hset_eq : (p.set j v).getD j 0 = v := by
      rw [List.getD_eq_getElem?_getD, List.getElem?_set_self hjp]
      rfl
    refine ⟨q, ?_, ?_, ?_, ?_, ?_⟩
    · rw [hstep, ← hv, hq]
    · rw [hql, List.length_set]
    · intro i hij
      rw [hqlow i (Nat.lt_succ_of_lt hij), hset_ne i (Nat.ne_of_lt hij)]
    · intro i hji hip
      rcases Nat.eq_or_lt_of_le hji with heq | hlt
      · subst heq
        rw [hqlow j (Nat.lt_succ_self j), hset_eq, hv,
          getD_lt p j 0 hjp, getD_lt params j paramDefault h]
      · rw [hqmid i hlt hip, hset_ne i (Nat.ne_of_gt hlt)]
    · intro i hip
      rw [hqhigh i hip, hset_ne i (Nat.ne_of_gt (Nat.lt_of_lt_of_le h hip))]
  · have hje : j = params.length := Nat.le_antisymm hj (Nat.le_of_not_lt h)
    refine ⟨p, ?_, rfl, fun i _ => rfl, ?_, fun i _ => rfl⟩
    · rw [prior_multinest_stop params p j params.length h]
    · intro i hji hip
      exact absurd (Nat.lt_of_le_of_lt (hje ▸ hji) hip) (Nat.lt_irrefl _)
termination_by params.length - j

/-- C7: the MultiNest prior transform maps coordinate `u` of dimension `i`
to `lower_i + u * (upper_i - lower_i)` (other coordinates untouched), so
`u = 0` lands on the lower bound and `u = 1` on the upper bound. -/
theorem prior_multinest_unit_cube (params : ParamSet) (p : List ℚ)
    (hlen : params.length ≤ p.length) :
    ∃ q, prior_multinest params p 0 params.length = .ok q
      ∧ q.length = p.length
      ∧ (∀ i, i < params.length →
          q.getD i 0 = (params.getD i paramDefault).lo
            + p.getD i 0 * ((params.getD i paramDefault).hi
                - (params.getD i paramDefault).lo))
      ∧ (∀ i, params.length ≤ i → q.getD i 0 = p.getD i 0)
      ∧ (∀ i, i < params.length → p.getD i 0 = 0 →
          q.getD i 0 = (params.getD i paramDefault).lo)
      ∧ (∀ i, i < params.length → p.getD i 0 = 1 →
          q.getD i 0 = (params.getD i paramDefault).hi) := by
  obtain ⟨q, h1, h2, _, h4, h5⟩ :=
    prior_multinest_go params 0 p hlen (Nat.zero_le _)
  refine ⟨q, h1, h2, fun i hi => h4 i (Nat.zero_le i) hi, h5, ?_, ?_⟩
  · intro i hi h0
    rw [h4 i (Nat.zero_le i) hi, h0]
    ring
  · intro i hi hone
    rw [h4 i (Nat.zero_le i) hi, hone]
    ring

/-- Sample two-parameter set for the C7 witness. -/
def paramsTwo : ParamSet :=
  [{ name := "a", v0 := 3, lo := 2, hi := 6, width := 1 },
   { name := "b", v0 := 0, lo := -1, hi := 1, width := 1 }]

/-- Witness for C7 at the concrete unit-cube point `[1/4, 1]`. -/
theorem prior_multinest_unit_cube_witness :
    ∃ q, prior_multinest paramsTwo [(1 : ℚ) / 4, 1] 0 paramsTwo.length = .ok q
      ∧ q.length = [(1 : ℚ) / 4, 1].length
      ∧ (∀ i, i < paramsTwo.length →
          q.getD i 0 = (paramsTwo.getD i paramDefault).lo
            + [(1 : ℚ) / 4, 1].getD i 0 * ((paramsTwo.getD i paramDefault).hi
                - (paramsTwo.getD i paramDefault).lo))
      ∧ (∀ i, paramsTwo.length ≤ i → q.getD i 0 = [(1 : ℚ) / 4, 1].getD i 0)
      ∧ (∀ i, i < paramsTwo.length → [(1 : ℚ) / 4, 1].getD i 0 = 0 →
          q.getD i 0 = (paramsTwo.getD i paramDefault).lo)
      ∧ (∀ i, i < paramsTwo.length → [(1 : ℚ) / 4, 1].getD i 0 = 1 →
          q.getD i 0 = (paramsTwo.getD i paramDefault).hi) :=
  prior_multinest_unit_cube paramsTwo [(1 : ℚ) / 4, 1] (by decide)

/-! ### Continuation behaviour of `run_mcmc` -/

theorem clearSimulate_spec (lk : LikelihoodModule) :
    (clearSimulate lk).simulate = none ∨ (clearSimulate lk).simulate = some false := by
  rcases h : lk.simulate with _ | b
  · simp [clearSimulate, h]
  · cases b <;> simp [clearSimulate, h]

/-- C3: with the default backend, `continue_sampling=True`, and an on-disk
descriptor whose chain compares unequal to the freshly assembled chain,
`run_mcmc` fails with `RuntimeError` and its effect trace shows no sampler
construction, no sampler start, and no chain setup. -/
theorem run_mcmc_continuation_mismatch_raises (env : RunEnv) (a : RunArgs)
    (old : LikelihoodComputationChain)
    (hm : a.use_multinest = false) (hz : a.use_zeus = false)
    (hc : a.continue_sampling = true)
    (hd : env.diskDescriptor = some old)
    (hne : old ≠ build_computation_chain a.core_modules a.likelihood_modules
      a.params false) :
    (run_mcmc env a).1 = .error .runtimeError
    ∧ Effect.samplerConstructed ∉ (run_mcmc env a).2
    ∧ Effect.samplerStarted ∉ (run_mcmc env a).2
    ∧ Effect.chainSetup ∉ (run_mcmc env a).2 := by
  simp [run_mcmc, hm, hz, hc, hd, continuationCheck, hne]

/-- A likelihood module whose `_simulate` attribute is set. -/
def lkSim : LikelihoodModule := { id := 0, simulate := some true }

/-- A chain unrelated to the one `argsDefault` assembles. -/
def chainOther : LikelihoodComputationChain :=
  { params := paramsUnit, coreModules := [{ id := 7 }], likelihoodModules := [] }

/-- Sample arguments on the default backend with continuation requested. -/
def argsDefault : RunArgs :=
  { datadir := "out", model_name := "m", core_modules := .many [{ id := 1 }],
    likelihood_modules := .many [lkSim], params := paramsUnit,
    continue_sampling := true, reuse_burnin := true, use_multinest := false,
    use_zeus := false, mcmc_options := [] }

/-- Environment holding a descriptor that does not match `argsDefault`. -/
def envMismatch : RunEnv :=
  { diskDescriptor := some chainOther, writeOk := true,
    multinestInstalled := true, zeusInstalled := true }

/-- Witness for C3 at a concrete mismatching descriptor. -/
theorem run_mcmc_continuation_mismatch_raises_witness :
    (run_mcmc envMismatch argsDefault).1 = .error .runtimeError
    ∧ Effect.samplerConstructed ∉ (run_mcmc envMismatch argsDefault).2
    ∧ Effect.samplerStarted ∉ (run_mcmc envMismatch argsDefault).2
    ∧ Effect.chainSetup ∉ (run_mcmc envMismatch argsDefault).2 :=
  run_mcmc_continuation_mismatch_raises envMismatch argsDefault chainOther
    rfl rfl rfl rfl (by decide)

/-- C4: with the default backend, `continue_sampling=True`, and a matching
on-disk descriptor, the run proceeds to the sampler with a chain whose
parameter set is exactly the assembled one, and every likelihood module that
has a `_simulate` attribute ends up with it equal to `False`. -/
theorem run_mcmc_continuation_match_clears_simulate (env : RunEnv) (a : RunArgs)
    (hm : a.use_multinest = false) (hz : a.use_zeus = false)
    (hc : a.continue_sampling = true)
    (hd : env.diskDescriptor = some (build_computation_chain a.core_modules
      a.likelihood_modules a.params false)) :
    ∃ cfg : SamplerConfig,
      (run_mcmc env a).1 = .ok (.defaultSampler cfg)
      ∧ cfg.chain.params = a.params
      ∧ ∀ lk ∈ cfg.chain.likelihoodModules,
          lk.simulate = none ∨ lk.simulate = some false := by
  refine ⟨{ continue_sampling := a.continue_sampling,
            chain := forceNoSimulate (build_computation_chain a.core_modules
              a.likelihood_modules a.params false),
            fileBase := a.datadir ++ "/" ++ a.model_name,
            reuseBurnin := a.reuse_burnin }, ?_, ?_, ?_⟩
  · simp [run_mcmc, hm, hz, hc, hd, continuationCheck, backendDispatch]
  · have hp := (build_chain_components a.core_modules a.likelihood_modules
      a.params false).2.2
    simpa [forceNoSimulate] using hp
  · intro lk hlk
    simp only [forceNoSimulate, List.mem_map] at hlk
    obtain ⟨lk0, _, rfl⟩ := hlk
    exact clearSimulate_spec lk0

/-- Environment whose descriptor matches the chain `argsDefault` assembles. -/
def envMatch : RunEnv :=
  { diskDescriptor := some (build_computation_chain argsDefault.core_modules
      argsDefault.likelihood_modules argsDefault.params false),
    writeOk := true, multinestInstalled := true, zeusInstalled := true }

/-- Witness for C4 at a concrete matching descriptor. -/
theorem run_mcmc_continuation_match_clears_simulate_witness :
    ∃ cfg : SamplerConfig,
      (run_mcmc envMatch argsDefault).1 = .ok (.defaultSampler cfg)
      ∧ cfg.chain.params = argsDefault.params
      ∧ ∀ lk ∈ cfg.chain.likelihoodModules,
          lk.simulate = none ∨ lk.simulate = some false :=
  run_mcmc_continuation_match_clears_simulate envMatch argsDefault rfl rfl rfl rfl

/-- C10: with the default backend and `continue_sampling=True`, the
re-simulate flags are forced off even when no descriptor file exists on disk:
the flag-clearing depends only on the continuation flag and the backend
selection, not on the presence or match of the descriptor. -/
theorem run_mcmc_fresh_continuation_clears_simulate (env : RunEnv) (a : RunArgs)
    (hm : a.use_multinest = false) (hz : a.use_zeus = false)
    (hc : a.continue_sampling = true)
    (hd : env.diskDescriptor = none) :
    ∃ cfg : SamplerConfig,
      (run_mcmc env a).1 = .ok (.defaultSampler cfg)
      ∧ cfg.chain = forceNoSimulate (build_computation_chain a.core_modules
          a.likelihood_modules a.params false)
      ∧ ∀ lk ∈ cfg.chain.likelihoodModules,
          lk.simulate = none ∨ lk.simulate = some false := by
  refine ⟨{ continue_sampling := a.continue_sampling,
            chain := forceNoSimulate (build_computation_chain a.core_modules
              a.likelihood_modules a.params false),
            fileBase := a.datadir ++ "/" ++ a.model_name,
            reuseBurnin := a.reuse_burnin }, ?_, rfl, ?_⟩
  · simp [run_mcmc, hm, hz, hc, hd, continuationCheck, backendDispatch]
  · intro lk hlk
    simp only [forceNoSimulate, List.mem_map] at hlk
    obtain ⟨lk0, _, rfl⟩ := hlk
    exact clearSimulate_spec lk0

/-- Witness for C10: fresh run (no descriptor) with a re-simulating module. -/
theorem run_mcmc_fresh_continuation_clears_simulate_witness :
    ∃ cfg : SamplerConfig,
      (run_mcmc envNoDisk argsDefault).1 = .ok (.defaultSampler cfg)
      ∧ cfg.chain = forceNoSimulate (build_computation_chain
          argsDefault.core_modules argsDefault.likelihood_modules
          argsDefault.params false)
      ∧ ∀ lk ∈ cfg.chain.likelihoodModules,
          lk.simulate = none ∨ lk.simulate = some false :=
  run_mcmc_fresh_continuation_clears_simulate envNoDisk argsDefault rfl rfl rfl rfl

/-! ### Descriptor write failure -/

/-- Effects belonging to the descriptor-write step. -/
def isWriteEffect : Effect → Bool
  | .writeDescriptor => true
  | .writeDescriptorFailed => true
  | _ => false

/-- C8: a failure to write the chain descriptor never changes the outcome of
`run_mcmc`, and the effect trace apart from the write step itself (which is
logged) is identical to that of a run whose write succeeds: setup and
sampling proceed exactly as they would have. -/
theorem run_mcmc_write_failure_nonfatal
    (disk : Option LikelihoodComputationChain) (mi zi : Bool) (a : RunArgs) :
    (run_mcmc (RunEnv.mk disk false mi zi) a).1
      = (run_mcmc (RunEnv.mk disk true mi zi) a).1
    ∧ ((run_mcmc (RunEnv.mk disk false mi zi) a).2.filter
        (fun e => !isWriteEffect e))
      = ((run_mcmc (RunEnv.mk disk true mi zi) a).2.filter
        (fun e => !isWriteEffect e)) := by
  cases hm : a.use_multinest <;> cases hz : a.use_zeus <;>
    cases hmi : mi <;> cases hzi : zi <;> cases hcs : a.continue_sampling <;>
    rcases hcc : continuationCheck disk (build_computation_chain a.core_modules
      a.likelihood_modules a.params false) with e | c <;>
    simp [run_mcmc, hm, hz, hcs, hcc, backendDispatch, isWriteEffect,
      List.filter_append]

end McmcModel
